import Mathlib

/-!
Verification of the Spoolman resin/bottle core against its sources.

Floats are embedded as rationals (`ℚ`), timestamps as natural-number ticks,
database rows as Lean structures, and the store as explicit lists of rows.
Fallible operations return `Except`.
-/

set_option autoImplicit false

namespace Spoolman

/-! ## Data model

Row types mirroring `models.Bottle`, `models.Resin` and `models.Vendor`, with
exactly the fields that the source modules read or write. -/

structure Vendor where
  id : Nat
  name : Option String := none
  deriving Repr, DecidableEq

structure Resin where
  id : Nat
  name : Option String := none
  registered : Nat := 0
  vendor_id : Option Nat := none
  material : Option String := none
  price : Option ℚ := none
  density : ℚ := 0
  diameter : ℚ := 0
  weight : Option ℚ := none
  bottle_weight : Option ℚ := none
  article_number : Option String := none
  comment : Option String := none
  cure_temp : Option Int := none
  cure_time : Option Int := none
  wash_time : Option Int := none
  color_hex : Option String := none
  deriving Repr, DecidableEq

structure Bottle where
  id : Nat
  resin_id : Nat
  registered : Nat := 0
  used_weight : ℚ := 0
  first_used : Option Nat := none
  last_used : Option Nat := none
  location : Option String := none
  lot_nr : Option String := none
  comment : Option String := none
  archived : Option Bool := none
  deriving Repr, DecidableEq

/-- The external transactional store: lists of committed rows. -/
structure Store where
  vendors : List Vendor := []
  resins : List Resin := []
  bottles : List Bottle := []
  deriving Repr, DecidableEq

def Store.getResin (s : Store) (resin_id : Nat) : Option Resin :=
  s.resins.find? (fun r => r.id == resin_id)

def Store.getBottle (s : Store) (bottle_id : Nat) : Option Bottle :=
  s.bottles.find? (fun b => b.id == bottle_id)

/-- The error taxonomy of `spoolman/exceptions.py` as surfaced by the sources,
plus `nameError` for a Python NameError raised by evaluating an unbound name. -/
inductive ApiError where
  | itemCreateError (msg : String)
  | itemNotFoundError (msg : String)
  | itemDeleteError (msg : String)
  | nameError (missing : String)
  deriving Repr, DecidableEq

/-! ## Consume-by-weight (`database/bottle.py`, `use_weight_safe`) -/

/-- The conditional store update issued by `use_weight_safe`
(`database/bottle.py` lines 205-214): the new `used_weight` is the CASE value
`used_weight + weight` when that sum is `≥ 0`, and `0` otherwise. -/
def used_weight_case (used_weight weight : ℚ) : ℚ :=
  if used_weight + weight ≥ 0 then used_weight + weight else 0

/-- `use_weight_safe` (`database/bottle.py` lines 197-214): one UPDATE
statement that rewrites the matching row with the CASE value above. -/
def use_weight_safe (s : Store) (bottle_id : Nat) (weight : ℚ) : Store :=
  { s with
    bottles := s.bottles.map fun b =>
      if b.id == bottle_id then { b with used_weight := used_weight_case b.used_weight weight }
      else b }

/-! ## Bottle creation (`database/bottle.py`, `create`) -/

/-- The used-weight computation at the head of `bottle.create`
(`database/bottle.py` lines 47-54): a supplied `used_weight` wins; otherwise a
supplied `remaining_weight` needs the resin to have a weight and yields
`max(weight - remaining_weight, 0)`; otherwise the bottle starts at `0`. -/
def bottle_create_used_weight (resin_weight : Option ℚ)
    (remaining_weight used_weight : Option ℚ) : Except ApiError ℚ :=
  match used_weight with
  | some u => .ok u
  | none =>
    match remaining_weight with
    | some r =>
      match resin_weight with
      | none =>
        .error (.itemCreateError "remaining_weight can only be used if the resin type has a weight set.")
      | some w => .ok (max (w - r) 0)
    | none => .ok 0

/-! ## Bottle update and the used-weight operations (`database/bottle.py`) -/

/-- The operations that touch a bottle row's `used_weight` after creation:
the `remaining_weight` and `used_weight` branches of `bottle.update`
(`database/bottle.py` lines 174-184) and the consume path `use_weight_safe`. -/
inductive UsedWeightOp where
  | update_remaining_weight (r : ℚ)
  | update_used_weight (u : ℚ)
  | use_weight (d : ℚ)
  deriving Repr, DecidableEq

/-- Effect of one operation on the stored `used_weight`, given the weight of
the bottle's resin at that moment. `update` with `remaining_weight` raises
`ItemCreateError` when the resin has no weight, leaving the row unchanged
(`database/bottle.py` lines 177-180); with a weight it stores
`max(weight - v, 0)` (line 180); `used_weight` goes through plain `setattr`
(line 184); consuming applies the CASE update of `use_weight_safe`. -/
def used_weight_step (resin_weight : Option ℚ) (used : ℚ) : UsedWeightOp → ℚ
  | .update_remaining_weight r =>
    match resin_weight with
    | none => used
    | some w => max (w - r) 0
  | .update_used_weight u => u
  | .use_weight d => used_weight_case used d

/-- API-level validation on values reaching the `used_weight` column:
`BottleParameters.used_weight` and its update variant carry `ge=0`
(`api/v1/bottle.py` line 44), so a stored-by-`setattr` value is nonnegative. -/
def op_valid : UsedWeightOp → Bool
  | .update_used_weight u => decide (0 ≤ u)
  | _ => true

/-! ## Find with pagination (`database/bottle.py` `find`, lines 91-163, and
`database/resin.py` `find`, lines 85-139)

The WHERE-clause builders (`add_where_clause_int`, `add_where_clause_str`, ...)
live in `database/utils.py`, which is not among the sources; all of them only
narrow the row set, so they are abstracted as one predicate argument `p`.
The archived clause of `bottle.find` (lines 128-135) is in the sources and is
embedded literally. -/

/-- A bottle row passes the WHERE clauses of `bottle.find`: the abstracted
filter `p` plus, unless `allow_archived`, `archived IS FALSE OR archived IS
NULL` (`database/bottle.py` lines 128-135). -/
def bottle_matches (allow_archived : Bool) (p : Bottle → Bool) (b : Bottle) : Bool :=
  p b && (allow_archived || (b.archived == some false || b.archived == none))

/-- `bottle.find` (`database/bottle.py` lines 137-163): when `limit` is set,
the total count of the filtered statement is taken first, then `OFFSET` and
`LIMIT` are applied; when `limit` is `none`, the statement is executed as-is
and the count is the length of the result. Sorting only permutes rows and is
irrelevant to membership and length, so it is not modelled. -/
def bottle_find (rows : List Bottle) (p : Bottle → Bool) (allow_archived : Bool)
    (limit : Option Nat) (offset : Nat) : List Bottle × Nat :=
  let filtered := rows.filter (bottle_matches allow_archived p)
  match limit with
  | none => (filtered, filtered.length)
  | some l => ((filtered.drop offset).take l, filtered.length)

/-- `resin.find` (`database/resin.py` lines 118-139): identical count-first
pagination over the resin table; the WHERE clauses are abstracted as `p`. -/
def resin_find (rows : List Resin) (p : Resin → Bool)
    (limit : Option Nat) (offset : Nat) : List Resin × Nat :=
  let filtered := rows.filter p
  match limit with
  | none => (filtered, filtered.length)
  | some l => ((filtered.drop offset).take l, filtered.length)

/-! ## Resin deletion (`database/resin.py` `delete`, `api/v1/resin.py` `delete`) -/

/-- `resin.delete` (`database/resin.py` lines 163-172): load the row (raising
`ItemNotFoundError` if absent), issue the delete and commit; a commit rejected
with `IntegrityError` is rolled back — leaving the store unchanged — and
translated to `ItemDeleteError`. Modelled from the spec: the store-side
referential-integrity rejection itself (the foreign key from bottle rows to
their resin lives in the external store and `models.py`, not among the
sources): committing the delete of a resin still referenced by a bottle
raises `IntegrityError`. -/
def resin_delete (s : Store) (resin_id : Nat) : Except ApiError Store :=
  match s.getResin resin_id with
  | none => .error (.itemNotFoundError ("No resin with ID " ++ toString resin_id ++ " found."))
  | some _ =>
    if s.bottles.any (fun b => b.resin_id == resin_id) then
      .error (.itemDeleteError "Failed to delete resin.")
    else
      .ok { s with resins := s.resins.filter (fun r => !(r.id == resin_id)) }

/-- The DELETE endpoint (`api/v1/resin.py` lines 395-407): `ItemDeleteError`
is caught and mapped to HTTP 403; `ItemNotFoundError` reaches the app-wide
handler, which per the declared responses maps it to HTTP 404; success
answers 200. The resulting store is paired with the status code. -/
def api_resin_delete (s : Store) (resin_id : Nat) : Nat × Store :=
  match resin_delete s resin_id with
  | .ok s2 => (200, s2)
  | .error (.itemDeleteError _) => (403, s)
  | .error _ => (404, s)

/-! ## Notification broker -/

/-- A topic: an ordered tuple of string segments, e.g. `["bottle"]` or
`["bottle", "42"]`. -/
abbrev Topic := List String

/-- Modelled from the spec: `spoolman/ws.py` (the `websocket_manager` used by
the sources) is not among them. Per §4.1 the broker keeps a mapping from
topic to the set of registered connection handles; connections are embedded
as numeric handles. -/
structure WebsocketManager where
  subscriptions : List (Topic × Nat) := []
  deriving Repr, DecidableEq

/-- Modelled from the spec: a subscriber topic matches a published topic when
it equals the published topic or is a strict prefix of it (§4.1 `publish`:
hierarchical fan-out). -/
def topic_matches : Topic → Topic → Bool
  | [], _ => true
  | _, [] => false
  | a :: s, b :: t => a == b && topic_matches s t

/-- Modelled from the spec: `subscribe` registers a connection under a topic
(§4.1); `websocket_manager.connect` in the sources. -/
def WebsocketManager.connect (m : WebsocketManager) (topic : Topic) (c : Nat) :
    WebsocketManager :=
  { m with subscriptions := (topic, c) :: m.subscriptions }

/-- Modelled from the spec: `unsubscribe` removes the registration, and is
idempotent (§4.1); `websocket_manager.disconnect` in the sources. -/
def WebsocketManager.disconnect (m : WebsocketManager) (topic : Topic) (c : Nat) :
    WebsocketManager :=
  { m with subscriptions := m.subscriptions.filter (fun q => !(q == (topic, c))) }

/-- Modelled from the spec: `publish` delivers the event to every connection
whose subscription topic equals the published topic or is a strict prefix of
it (§4.1); this is the recipient list of one `websocket_manager.send` call. -/
def WebsocketManager.send_recipients (m : WebsocketManager) (topic : Topic) : List Nat :=
  (m.subscriptions.filter (fun q => topic_matches q.1 topic)).map (fun q => q.2)

/-- `bottle_changed` (`database/bottle.py` lines 309-319) publishes every
bottle event to the topic `("bottle", str(bottle.id))`. -/
def bottle_changed_topic (b : Bottle) : Topic := ["bottle", toString b.id]

/-- `notify_any` (`api/v1/bottle.py` lines 260-271) subscribes a connection
to the topic `("bottle",)`. -/
def notify_any_topic : Topic := ["bottle"]

/-- `notify` (`api/v1/bottle.py` lines 296-308) subscribes a connection to
the topic `("bottle", str(bottle_id))`. -/
def notify_topic (bottle_id : Nat) : Topic := ["bottle", toString bottle_id]

/-! ## Resin creation (`database/resin.py` `create`) -/

/-- The keyword arguments accepted by `resin.create`
(`database/resin.py` lines 28-44). -/
structure ResinCreateParams where
  density : ℚ
  name : Option String := none
  vendor_id : Option Nat := none
  material : Option String := none
  price : Option ℚ := none
  weight : Option ℚ := none
  bottle_weight : Option ℚ := none
  article_number : Option String := none
  comment : Option String := none
  cure_temp : Option Int := none
  cure_time : Option Int := none
  wash_time : Option Int := none
  color_hex : Option String := none
  deriving Repr, DecidableEq

/-- `create` from `database/resin.py` lines 28-70. After resolving the vendor
(lines 46-48), the body evaluates the keyword arguments of `models.Resin(...)`
left to right; the seventh one is `diameter=diameter` (line 57), and no
`diameter` is bound in the function or module — the signature has no such
parameter — so Python raises a NameError for `diameter` before any row is
built, inserted or committed (`settings_cure_temp`, `settings_cure_time` and
`settings_wash_time` on lines 62-64 are equally unbound, and the caller in
`api/v1/resin.py` lines 336-352 passes `diameter=` and `settings_*=` keywords
the signature does not accept). `resin_changed` is therefore never reached. -/
def resin_create (s : Store) (p : ResinCreateParams) : Except ApiError (Resin × Store) :=
  match p.vendor_id with
  | some vid =>
    match s.vendors.find? (fun v => v.id == vid) with
    | none => .error (.itemNotFoundError ("No vendor with ID " ++ toString vid ++ " found."))
    | some _ => .error (.nameError "diameter")
  | none => .error (.nameError "diameter")

/-! ## Consume endpoint (`api/v1/bottle.py` `use`, `database/bottle.py`
`use_weight` and `use_length`) -/

/-- `use_weight` (`database/bottle.py` lines 217-241): apply the atomic
decrement, re-read the bottle (raising `ItemNotFoundError` when it does not
exist; the uncommitted decrement is then discarded with the session), stamp
`first_used` when unset and `last_used` with the current time, and commit. -/
def use_weight (s : Store) (bottle_id : Nat) (weight : ℚ) (now : Nat) :
    Except ApiError (Bottle × Store) :=
  let s1 := use_weight_safe s bottle_id weight
  match s1.getBottle bottle_id with
  | none => .error (.itemNotFoundError ("No bottle with ID " ++ toString bottle_id ++ " found."))
  | some b =>
    let b2 := { b with first_used := some (b.first_used.getD now), last_used := some now }
    .ok (b2, { s1 with bottles := s1.bottles.map fun x => if x.id == bottle_id then b2 else x })

/-- `use_length` (`database/bottle.py` lines 244-286): read the diameter and
density of the bottle resin (raising `ItemNotFoundError` when the join yields
nothing), convert the length to a weight with `weight_from_length` (from
`spoolman/math.py`, not among the sources — kept as a parameter taking
length, diameter and density), then continue exactly as `use_weight`. -/
def use_length (weight_from_length : ℚ → ℚ → ℚ → ℚ) (s : Store) (bottle_id : Nat)
    (length : ℚ) (now : Nat) : Except ApiError (Bottle × Store) :=
  match s.getBottle bottle_id >>= fun b => s.getResin b.resin_id with
  | none => .error (.itemNotFoundError "Resin not found for bottle.")
  | some r => use_weight s bottle_id (weight_from_length length r.diameter r.density) now

/-- The `use` endpoint (`api/v1/bottle.py` lines 433-455): both deltas present
answers 400 before touching the store; a weight delta runs `use_weight`; a
length delta runs `use_length`; neither answers 400, equally without touching
the store. Errors map to 404 through the app-wide handler, success to 200,
each paired with the resulting store. -/
def api_bottle_use (weight_from_length : ℚ → ℚ → ℚ → ℚ) (s : Store) (bottle_id : Nat)
    (use_length_arg use_weight_arg : Option ℚ) (now : Nat) : Nat × Store :=
  if use_weight_arg.isSome && use_length_arg.isSome then (400, s)
  else
    match use_weight_arg with
    | some w =>
      match use_weight s bottle_id w now with
      | .ok (_, s2) => (200, s2)
      | .error _ => (404, s)
    | none =>
      match use_length_arg with
      | some l =>
        match use_length weight_from_length s bottle_id l now with
        | .ok (_, s2) => (200, s2)
        | .error _ => (404, s)
      | none => (400, s)

/-! ## Color similarity search (`database/resin.py` `find_by_color`) -/

/-- A point of the perceptually uniform color space (CIELAB). -/
structure Lab where
  lightness : ℚ
  a : ℚ
  b : ℚ
  deriving Repr, DecidableEq

/-- `find_by_color` (`database/resin.py` lines 198-222): load every resin
(`find` with no filters, limit or offset — line 210), convert the query color
to Lab once, and keep, in order, the resins carrying a color whose perceptual
difference from the query is within the threshold (resins without a color are
skipped). The color pipeline (`hex_to_rgb`, `rgb_to_lab`, `delta_e`) lives in
`spoolman/math.py`, which is not among the sources; modelled from the spec as
parameters: `to_lab` is the hex-to-perceptual-space conversion and `delta_e`
the perceptual color-difference metric. -/
def find_by_color (to_lab : String → Lab) (delta_e : Lab → Lab → ℚ)
    (rows : List Resin) (color_query_hex : String) (similarity_threshold : ℚ) :
    List Resin :=
  ((resin_find rows (fun _ => true) none 0).1).filter fun r =>
    match r.color_hex with
    | none => false
    | some c => decide (delta_e (to_lab color_query_hex) (to_lab c) ≤ similarity_threshold)

/-! ## Shared helper lemmas -/

theorem used_weight_case_eq_max (u d : ℚ) : used_weight_case u d = max (u + d) 0 := by
  unfold used_weight_case
  split
  · next h => exact (max_eq_left h).symm
  · next h => exact (max_eq_right (le_of_not_le (fun hc => h hc))).symm

theorem used_weight_case_nonneg (u d : ℚ) : 0 ≤ used_weight_case u d := by
  rw [used_weight_case_eq_max]; exact le_max_right _ _

/-! ## Claim theorems -/

/-- Claim C2: creating with a remaining quantity R against a resin with
declared capacity C (and no used quantity) stores used-weight
`max(C - R, 0)`; creating with neither remaining nor used stores `0`. -/
theorem C2_create_used_weight (C R : ℚ) (w : Option ℚ) :
    bottle_create_used_weight (some C) (some R) none = Except.ok (max (C - R) 0) ∧
    bottle_create_used_weight w none none = Except.ok 0 :=
  ⟨rfl, rfl⟩

/-- Claim C4: with `limit = L` and `offset = O` against `T` filtered matches,
the returned page has length `max 0 (min L (T - O))` (so an offset beyond `T`
yields an empty page), the reported total equals `T` independently of `L` and
`O`, and with `limit` omitted the full filtered set is returned and its length
is the reported count. -/
theorem C4_find_pagination (rows : List Bottle) (p : Bottle → Bool)
    (allow_archived : Bool) (L O : Nat) :
    (((bottle_find rows p allow_archived (some L) O).1.length : ℤ) =
      max 0 (min (L : ℤ) (((rows.filter (bottle_matches allow_archived p)).length : ℤ) - (O : ℤ)))) ∧
    (bottle_find rows p allow_archived (some L) O).2 =
      (rows.filter (bottle_matches allow_archived p)).length ∧
    (bottle_find rows p allow_archived none O).1 =
      rows.filter (bottle_matches allow_archived p) ∧
    (bottle_find rows p allow_archived none O).2 =
      (bottle_find rows p allow_archived none O).1.length := by
  refine ⟨?_, rfl, rfl, rfl⟩
  show ((((rows.filter (bottle_matches allow_archived p)).drop O).take L).length : ℤ) = _
  rw [List.length_take, List.length_drop]
  omega

/-- Claim C10: when `limit` is omitted, `offset` has no effect: the statement
is executed without OFFSET/LIMIT, so any offset returns the same full filtered
result set, for both `bottle.find` and `resin.find`. -/
theorem C10_offset_ignored_without_limit (rows : List Bottle) (p : Bottle → Bool)
    (allow_archived : Bool) (rrows : List Resin) (q : Resin → Bool) (O : Nat) :
    bottle_find rows p allow_archived none O = bottle_find rows p allow_archived none 0 ∧
    (bottle_find rows p allow_archived none O).1 =
      rows.filter (bottle_matches allow_archived p) ∧
    resin_find rrows q none O = resin_find rrows q none 0 ∧
    (resin_find rrows q none O).1 = rrows.filter q :=
  ⟨rfl, rfl, rfl, rfl⟩

theorem foldl_used_weight_case_of_nonneg (ds : List ℚ) :
    ∀ U : ℚ, 0 ≤ U → (∀ d ∈ ds, 0 ≤ d) →
      List.foldl used_weight_case U ds = U + ds.sum := by
  induction ds with
  | nil => intro U _ _; simp
  | cons d t ih =>
    intro U hU hds
    have hd : 0 ≤ d := hds d (List.mem_cons_self d t)
    have h1 : used_weight_case U d = U + d := by
      rw [used_weight_case_eq_max]
      exact max_eq_left (by positivity)
    rw [List.foldl_cons, h1, List.sum_cons,
      ih (U + d) (by positivity) (fun x hx => hds x (List.mem_cons_of_mem d hx))]
    ring

/-- Claim C1, counterexample: with initial used-quantity `0` and the deltas
`-5` then `3` (each applied through the conditional CASE update of
`use_weight_safe`), the final used-quantity is `3`, not
`max(0 + (-5) + 3, 0) = 0`: the claimed identity fails once an intermediate
clamp at zero fires, even though every single update is atomic. -/
theorem C1_interleaving_sum_counterexample :
    decide (List.foldl used_weight_case 0 [(-5 : ℚ), 3] =
      max ((0 : ℚ) + List.sum [(-5 : ℚ), 3]) 0) = false := by
  have h1 : used_weight_case 0 (-5 : ℚ) = 0 := by
    unfold used_weight_case; norm_num
  have h2 : used_weight_case 0 (3 : ℚ) = 3 := by
    unfold used_weight_case; norm_num
  have h3 : max ((0 : ℚ) + List.sum [(-5 : ℚ), 3]) 0 = 0 := by
    have hs : (0 : ℚ) + List.sum [(-5 : ℚ), 3] = -2 := by
      simp only [List.sum_cons, List.sum_nil]; norm_num
    rw [hs]
    exact max_eq_right (by norm_num)
  apply decide_eq_false
  intro hcontra
  rw [List.foldl_cons, List.foldl_cons, List.foldl_nil, h1, h2, h3] at hcontra
  norm_num at hcontra

/-- Claim C1, amended: `use_weight_safe` updates the used-quantity to
`max(used + d, 0)` in one conditional store update, and for NONNEGATIVE
deltas d1...dN (consumption) applied in any interleaving to an initial
used-quantity `U0 ≥ 0`, the final used-quantity equals `max(U0 + sum(di), 0)`
with no update lost. -/
theorem C1_use_weight_safe_amended (U0 : ℚ) (ds interleaved : List ℚ)
    (hU0 : 0 ≤ U0) (hpos : ∀ d ∈ ds, 0 ≤ d) (hperm : interleaved.Perm ds) :
    (∀ u d, used_weight_case u d = max (u + d) 0) ∧
    List.foldl used_weight_case U0 interleaved = max (U0 + ds.sum) 0 := by
  refine ⟨used_weight_case_eq_max, ?_⟩
  have hpos2 : ∀ d ∈ interleaved, 0 ≤ d := fun d hd => hpos d (hperm.mem_iff.mp hd)
  rw [foldl_used_weight_case_of_nonneg interleaved U0 hU0 hpos2, hperm.sum_eq]
  have hsum : 0 ≤ ds.sum := List.sum_nonneg hpos
  exact (max_eq_left (by positivity)).symm

theorem C1_use_weight_safe_amended_witness :
    (∀ u d, used_weight_case u d = max (u + d) 0) ∧
    List.foldl used_weight_case 1 [(3 : ℚ), 2] = max ((1 : ℚ) + List.sum [(2 : ℚ), 3]) 0 :=
  C1_use_weight_safe_amended 1 [2, 3] [3, 2] (by norm_num)
    (by intro d hd; fin_cases hd <;> norm_num) (List.Perm.swap 2 3 [])

theorem foldl_used_weight_step_nonneg (ops : List (Option ℚ × UsedWeightOp)) :
    ∀ U : ℚ, 0 ≤ U → (∀ q ∈ ops, op_valid q.2 = true) →
      0 ≤ List.foldl (fun u q => used_weight_step q.1 u q.2) U ops := by
  induction ops with
  | nil => intro U hU _; exact hU
  | cons q t ih =>
    intro U hU hops
    rw [List.foldl_cons]
    have hq := hops q (List.mem_cons_self q t)
    refine ih _ ?_ (fun x hx => hops x (List.mem_cons_of_mem q hx))
    rcases q with ⟨w, op⟩
    rcases op with r | u | d
    · rcases w with _ | w
      · exact hU
      · exact le_max_right _ _
    · simpa [op_valid] using hq
    · exact used_weight_case_nonneg _ _

/-- Claim C3: the used-quantity is never negative: creation clamps
capacity-derived values at zero (or stores a validated `ge=0` value, or `0`),
and every subsequent `remaining_weight` update, `used_weight` update
(API-validated `ge=0`) or consume operation keeps it nonnegative, whatever the
resin weight in effect at each step. -/
theorem C3_used_weight_never_negative (resin_weight : Option ℚ)
    (remaining used0 : Option ℚ) (h0 : ∀ u, used0 = some u → 0 ≤ u)
    (U0 : ℚ) (hc : bottle_create_used_weight resin_weight remaining used0 = Except.ok U0)
    (ops : List (Option ℚ × UsedWeightOp)) (hops : ∀ q ∈ ops, op_valid q.2 = true) :
    0 ≤ List.foldl (fun u q => used_weight_step q.1 u q.2) U0 ops := by
  have hU0 : 0 ≤ U0 := by
    rcases used0 with _ | u
    · rcases remaining with _ | r
      · rw [bottle_create_used_weight] at hc
        simp only [Except.ok.injEq] at hc
        rw [← hc]
      · rcases resin_weight with _ | w
        · rw [bottle_create_used_weight] at hc
          exact absurd hc (by simp)
        · rw [bottle_create_used_weight] at hc
          simp only [Except.ok.injEq] at hc
          rw [← hc]
          exact le_max_right _ _
    · rw [bottle_create_used_weight] at hc
      simp only [Except.ok.injEq] at hc
      rw [← hc]
      exact h0 u rfl
  exact foldl_used_weight_step_nonneg ops U0 hU0 hops

theorem C3_used_weight_never_negative_witness :
    0 ≤ List.foldl (fun u q => used_weight_step q.1 u q.2) 0
      [(some (1000 : ℚ), UsedWeightOp.use_weight (-300)),
       (some 1000, UsedWeightOp.update_remaining_weight 950),
       (none, UsedWeightOp.update_used_weight 7)] :=
  C3_used_weight_never_negative (some 1000) none none
    (fun u hu => nomatch hu) 0 rfl
    _ (by intro q hq; fin_cases hq <;> norm_num [op_valid])

/-- Claim C5: deleting a resin still referenced by an existing bottle fails
atomically: the integrity rejection is caught, the rollback leaves the store
unchanged, the endpoint answers the distinct blocked status HTTP 403 (not a
generic failure), and the resin can still be read unchanged afterward. -/
theorem C5_delete_blocked_atomic (s : Store) (resin_id : Nat) (r : Resin)
    (hr : s.getResin resin_id = some r)
    (hdep : s.bottles.any (fun b => b.resin_id == resin_id) = true) :
    resin_delete s resin_id = Except.error (ApiError.itemDeleteError "Failed to delete resin.") ∧
    api_resin_delete s resin_id = (403, s) ∧
    (api_resin_delete s resin_id).2.getResin resin_id = some r := by
  have h1 : resin_delete s resin_id =
      Except.error (ApiError.itemDeleteError "Failed to delete resin.") := by
    simp only [resin_delete, hr, hdep, if_true]
  refine ⟨h1, ?_, ?_⟩
  · simp only [api_resin_delete, h1]
  · simp only [api_resin_delete, h1]
    exact hr

theorem C5_delete_blocked_atomic_witness :
    resin_delete { resins := [{ id := 7, density := 1 }], bottles := [{ id := 1, resin_id := 7 }] } 7 =
      Except.error (ApiError.itemDeleteError "Failed to delete resin.") ∧
    api_resin_delete { resins := [{ id := 7, density := 1 }], bottles := [{ id := 1, resin_id := 7 }] } 7 =
      (403, { resins := [{ id := 7, density := 1 }], bottles := [{ id := 1, resin_id := 7 }] }) ∧
    (api_resin_delete { resins := [{ id := 7, density := 1 }], bottles := [{ id := 1, resin_id := 7 }] } 7).2.getResin 7 =
      some { id := 7, density := 1 } :=
  C5_delete_blocked_atomic
    { resins := [{ id := 7, density := 1 }], bottles := [{ id := 1, resin_id := 7 }] }
    7 { id := 7, density := 1 } (by rfl) (by rfl)

/-- Claim C6: an event published for bottle `b` — topic
`("bottle", str(b.id))`, as built by `bottle_changed` — reaches every
connection subscribed to that exact topic and every connection subscribed to
the strict prefix `("bottle",)`, and no connection whose subscriptions are
all on a sibling topic `("bottle", j)` with `j ≠ str(b.id)`. -/
theorem C6_publish_hierarchical_fanout (m : WebsocketManager) (b : Bottle)
    (j : String) (hj : j ≠ toString b.id) (c1 c2 c3 : Nat)
    (h1 : (notify_topic b.id, c1) ∈ m.subscriptions)
    (h2 : (notify_any_topic, c2) ∈ m.subscriptions)
    (h3 : m.subscriptions.all (fun q => !(q.2 == c3) || q.1 == ["bottle", j]) = true) :
    c1 ∈ m.send_recipients (bottle_changed_topic b) ∧
    c2 ∈ m.send_recipients (bottle_changed_topic b) ∧
    c3 ∉ m.send_recipients (bottle_changed_topic b) := by
  refine ⟨?_, ?_, ?_⟩
  · refine List.mem_map.mpr ⟨(notify_topic b.id, c1), List.mem_filter.mpr ⟨h1, ?_⟩, rfl⟩
    simp [notify_topic, bottle_changed_topic, topic_matches]
  · refine List.mem_map.mpr ⟨(notify_any_topic, c2), List.mem_filter.mpr ⟨h2, ?_⟩, rfl⟩
    simp [notify_any_topic, bottle_changed_topic, topic_matches]
  · intro hmem
    obtain ⟨q, hqf, hq2⟩ := List.mem_map.mp hmem
    obtain ⟨hqs, hqm⟩ := List.mem_filter.mp hqf
    have hall := List.all_eq_true.mp h3 q hqs
    rw [hq2] at hall
    simp only [beq_self_eq_true, Bool.not_true, Bool.false_or, beq_iff_eq] at hall
    rw [hall, bottle_changed_topic] at hqm
    simp only [topic_matches, beq_self_eq_true, Bool.true_and, Bool.and_true,
      beq_iff_eq] at hqm
    exact hj hqm

theorem C6_publish_hierarchical_fanout_witness :
    1 ∈ WebsocketManager.send_recipients
      ⟨[(notify_topic 42, 1), (notify_any_topic, 2), (["bottle", "43"], 3)]⟩
      (bottle_changed_topic { id := 42, resin_id := 7 }) ∧
    2 ∈ WebsocketManager.send_recipients
      ⟨[(notify_topic 42, 1), (notify_any_topic, 2), (["bottle", "43"], 3)]⟩
      (bottle_changed_topic { id := 42, resin_id := 7 }) ∧
    3 ∉ WebsocketManager.send_recipients
      ⟨[(notify_topic 42, 1), (notify_any_topic, 2), (["bottle", "43"], 3)]⟩
      (bottle_changed_topic { id := 42, resin_id := 7 }) :=
  C6_publish_hierarchical_fanout
    ⟨[(notify_topic 42, 1), (notify_any_topic, 2), (["bottle", "43"], 3)]⟩
    { id := 42, resin_id := 7 } "43" (by decide) 1 2 3
    (List.mem_cons_self _ _)
    (List.mem_cons_of_mem _ (List.mem_cons_self _ _))
    (by decide)

/-- Claim C7 (code bug): no resin creation request can succeed — `create`
raises a NameError for the unbound `diameter` before building, inserting or
committing any row, so no entity carrying the supplied attributes is
persisted and no ADDED event is published; concretely the minimal valid
request (density only, no vendor) fails exactly with that error. -/
theorem C7_resin_create_never_succeeds :
    (∀ s p, ∃ e, resin_create s p = Except.error e) ∧
    resin_create {} { density := 124 / 100 } = Except.error (ApiError.nameError "diameter") := by
  constructor
  · intro s p
    rcases hv : p.vendor_id with _ | vid
    · exact ⟨.nameError "diameter", by simp only [resin_create, hv]⟩
    · rcases hf : s.vendors.find? (fun v => v.id == vid) with _ | v
      · exact ⟨.itemNotFoundError ("No vendor with ID " ++ toString vid ++ " found."),
          by simp only [resin_create, hv, hf]⟩
      · exact ⟨.nameError "diameter", by simp only [resin_create, hv, hf]⟩
  · rfl

/-- Claim C8: a consume request supplying both a length and a weight delta,
or neither, is rejected with HTTP 400 before any mutation: the store comes
back unchanged in both cases. -/
theorem C8_use_both_or_neither_rejected (weight_from_length : ℚ → ℚ → ℚ → ℚ)
    (s : Store) (bottle_id : Nat) (l w : ℚ) (now : Nat) :
    api_bottle_use weight_from_length s bottle_id (some l) (some w) now = (400, s) ∧
    api_bottle_use weight_from_length s bottle_id none none now = (400, s) :=
  ⟨rfl, rfl⟩

/-- Claim C9: for thresholds `t1 ≤ t2`, every resin matched by the color
search at threshold `t1` is also matched at `t2`; and since the perceptual
difference of a color from itself is `0`, a resin whose color equals the
query color is matched at every nonnegative threshold. -/
theorem C9_find_by_color_monotone_and_reflexive (to_lab : String → Lab)
    (delta_e : Lab → Lab → ℚ) (rows : List Resin) (q : String) (t1 t2 : ℚ)
    (h12 : t1 ≤ t2) (hself : ∀ x, delta_e x x = 0) (r : Resin) :
    (r ∈ find_by_color to_lab delta_e rows q t1 →
      r ∈ find_by_color to_lab delta_e rows q t2) ∧
    (r ∈ rows → r.color_hex = some q → 0 ≤ t1 →
      r ∈ find_by_color to_lab delta_e rows q t1) := by
  constructor
  · intro hr
    rw [find_by_color, List.mem_filter] at hr ⊢
    refine ⟨hr.1, ?_⟩
    have h2 := hr.2
    rcases hc : r.color_hex with _ | c
    · rw [hc] at h2
      simp at h2
    · rw [hc] at h2
      simp only [decide_eq_true_eq] at h2 ⊢
      exact le_trans h2 h12
  · intro hrows hch ht
    rw [find_by_color, List.mem_filter]
    constructor
    · show r ∈ (resin_find rows (fun _ => true) none 0).1
      simpa [resin_find] using hrows
    · rw [hch]
      simp only [decide_eq_true_eq, hself]
      exact ht

theorem C9_find_by_color_monotone_and_reflexive_witness :
    ({ id := 1, color_hex := some "FF0000" : Resin } ∈
        find_by_color (fun _ => ⟨0, 0, 0⟩) (fun _ _ => 0)
          [{ id := 1, color_hex := some "FF0000" }] "FF0000" 0 →
      { id := 1, color_hex := some "FF0000" : Resin } ∈
        find_by_color (fun _ => ⟨0, 0, 0⟩) (fun _ _ => 0)
          [{ id := 1, color_hex := some "FF0000" }] "FF0000" 1) ∧
    ({ id := 1, color_hex := some "FF0000" : Resin } ∈
        [{ id := 1, color_hex := some "FF0000" : Resin }] →
      ({ id := 1, color_hex := some "FF0000" : Resin }).color_hex = some "FF0000" →
      (0 : ℚ) ≤ 0 →
      { id := 1, color_hex := some "FF0000" : Resin } ∈
        find_by_color (fun _ => ⟨0, 0, 0⟩) (fun _ _ => 0)
          [{ id := 1, color_hex := some "FF0000" }] "FF0000" 0) :=
  C9_find_by_color_monotone_and_reflexive (fun _ => ⟨0, 0, 0⟩) (fun _ _ => 0)
    [{ id := 1, color_hex := some "FF0000" }] "FF0000" 0 1
    (by norm_num) (fun x => rfl) { id := 1, color_hex := some "FF0000" }

end Spoolman
